import Mathlib

/-!
Verification of the SummarAIze summarization gateway (backend/src/server.ts).

The Express request pipeline for `POST /api/summarize` is shallowly embedded
as pure Lean functions:

* `Env` models the process environment variables read at startup.
* `World` models the behavior of the external collaborators during one
  request (the Gemini and OpenAI SDK calls, `jwtVerify`, and the message of
  the error thrown by the zod body parser on a validation failure).
* `checkJwtJose` embeds the auth middleware, `summarizeHandler` the route
  handler (zod parse, Gemini attempt, OpenAI fallback, demo response, outer
  catch), and `handleRequest` the whole middleware chain including the
  `express.json({ limit: "1mb" })` body parser that runs first.

String truthiness of environment variables (`process.env.X || default`,
`if (process.env.KEY)`) is modelled by comparison with the empty string.
`String.length` stands in for JavaScript's UTF-16 `length`; the two agree on
all strings used in the development.
-/

namespace SummarAIze

/-- Substring containment, modelling JavaScript's `String.prototype.includes`. -/
def strContains (haystack needle : String) : Bool :=
  (List.range (haystack.data.length + 1)).any
    fun i => needle.data.isPrefixOf (haystack.data.drop i)

/-- Splitting a character list on a separator, keeping empty fields, so that
`splitFields sep` on `"a  b"` gives `["a", "", "b"]` and on `""` gives
`[""]` — the semantics of JavaScript's `String.prototype.split`. -/
def splitFields (sep : Char) : List Char → List (List Char)
  | [] => [[]]
  | c :: cs =>
    let rest := splitFields sep cs
    if c = sep then [] :: rest
    else (c :: rest.headD []) :: rest.tail

/-- JavaScript's `auth.split(" ")`. -/
def jsSplitSpace (s : String) : List String :=
  (splitFields ' ' s.data).map List.asString

/-- JavaScript's `String.prototype.toLowerCase` (ASCII case folding, which is
all the middleware's comparison with `"bearer"` needs). -/
def jsToLowerCase (s : String) : String :=
  (s.data.map Char.toLower).asString

/-- JavaScript's `String.prototype.trim`: strip whitespace from both ends. -/
def jsTrim (s : String) : String :=
  ((s.data.dropWhile Char.isWhitespace).reverse.dropWhile
    Char.isWhitespace).reverse.asString

/-- Process environment. Each field models one `process.env.*` read in
server.ts; the empty string models an unset (falsy) variable. -/
structure Env where
  geminiApiKey : String
  openaiApiKey : String
  geminiModelEnv : String
  auth0Domain : String
  auth0Audience : String
deriving Repr, DecidableEq

/-- `const GEMINI_MODEL = process.env.GEMINI_MODEL || "gemini-2.0-flash"`. -/
def GEMINI_MODEL (env : Env) : String :=
  if env.geminiModelEnv = "" then "gemini-2.0-flash" else env.geminiModelEnv

/-- `const ISSUER = AUTH0_DOMAIN ? `https://${AUTH0_DOMAIN}/` : ""`. -/
def ISSUER (env : Env) : String :=
  if env.auth0Domain = "" then "" else "https://" ++ env.auth0Domain ++ "/"

/-- `const JWKS = AUTH0_DOMAIN ? createRemoteJWKSet(...) : null`; we only
need whether it is non-null. -/
def hasJWKS (env : Env) : Bool := env.auth0Domain ≠ ""

/-- Outcome of the Gemini SDK call `model.generateContent(prompt)` followed by
`result.response.text()`: either the returned text or a thrown error's
message (`String(gerr?.message || gerr)`). -/
inductive GeminiOutcome where
  | ok (text : String)
  | err (message : String)
deriving Repr, DecidableEq

/-- Outcome of `openai.chat.completions.create(...)`: `ok content` carries
`completion.choices?.[0]?.message?.content` (`none` when any link of the
optional chain is absent), `err` a thrown error's message. -/
inductive OpenAIOutcome where
  | ok (content : Option String)
  | err (message : String)
deriving Repr, DecidableEq

/-- Behavior of the external collaborators during one request.
`jwtVerifyOk` is whether `jwtVerify(token, JWKS, ...)` resolves;
`jwtErrorMsg` is `String(e?.message || e)` when it rejects; `zodErrorMsg` is
the `message` of the `ZodError` thrown by `Body.parse` when validation
fails (its format is the zod library's, outside this repository). -/
structure World where
  geminiOutcome : GeminiOutcome
  openaiOutcome : OpenAIOutcome
  jwtVerifyOk : Bool
  jwtErrorMsg : String
  zodErrorMsg : String
deriving Repr, DecidableEq

/-- The JSON response body shapes produced by server.ts, as one record of
optional fields mirroring the object literals passed to `res.json`. -/
structure ResBody where
  summary : Option String := none
  provider : Option String := none
  model : Option String := none
  error : Option String := none
  detail : Option String := none
deriving Repr, DecidableEq

/-- An HTTP response: status code plus JSON body. -/
structure Response where
  status : Nat
  body : ResBody
deriving Repr, DecidableEq

/-- `function unauthorized(res, detail?)`: 401 with `{ error: "Unauthorized",
detail }`. -/
def unauthorized (detail : Option String) : Response :=
  { status := 401, body := { error := some "Unauthorized", detail := detail } }

/-- Result of the `checkJwtJose` middleware: `blocked` is `some r` when the
middleware responded with `r` instead of calling `next()`;
`verifyAttempted` records whether `jwtVerify` was invoked. -/
structure AuthCheck where
  blocked : Option Response
  verifyAttempted : Bool
deriving Repr, DecidableEq

/-- The Bearer-scheme check of `checkJwtJose`:
`const [scheme, token] = auth.split(" ")` followed by
`scheme?.toLowerCase() !== "bearer" || !token`, where `auth` is the
`Authorization` header or `""` and `!token` is true when the second field is
absent or empty. -/
def malformedAuthHeader (authorization : Option String) : Bool :=
  let parts := jsSplitSpace (authorization.getD "")
  (jsToLowerCase (parts.headD "") != "bearer") ||
    parts[1]? == none || parts[1]? == some ""

/-- The `checkJwtJose` middleware: config check, Bearer-scheme check, then
`jwtVerify`, with every failure collapsed to a 401 via `unauthorized`. -/
def checkJwtJose (env : Env) (w : World) (authorization : Option String) : AuthCheck :=
  if ¬ (hasJWKS env = true) ∨ env.auth0Audience = "" ∨ ISSUER env = "" then
    { blocked := some (unauthorized
        (some "Auth not configured on server (missing AUTH0_* envs).")),
      verifyAttempted := false }
  else if malformedAuthHeader authorization then
    { blocked := some (unauthorized (some "Missing Bearer token")),
      verifyAttempted := false }
  else if w.jwtVerifyOk then
    { blocked := none, verifyAttempted := true }
  else
    { blocked := some (unauthorized (some w.jwtErrorMsg)), verifyAttempted := true }

/-- The `text` field of the parsed JSON request body as seen by zod. -/
inductive BodyVal where
  | missing
  | notString
  | str (s : String)
deriving Repr, DecidableEq

/-- `const Body = z.object({ text: z.string().min(1).max(20000) })`:
`Body.parse(req.body)` succeeds exactly on a string `text` of length 1 to
20000 and throws a `ZodError` otherwise. -/
def bodyParse : BodyVal → Except Unit String
  | .str s => if 1 ≤ s.length ∧ s.length ≤ 20000 then .ok s else .error ()
  | _ => .error ()

/-- Which provider adapters were invoked, in order. -/
inductive ProviderCall where
  | gemini
  | openai
deriving Repr, DecidableEq

/-- The demo response summary string built in server.ts. -/
def demoSummary (env : Env) (text : String) : String :=
  "• (Demo) No AI provider responded\n" ++
  "• Gemini model tried: " ++ GEMINI_MODEL env ++ "\n" ++
  "• Tip: set GEMINI_API_KEY (AI Studio) with gemini-2.0-flash\n" ++
  "• Or add OPENAI_API_KEY (with quota)\n" ++
  "• Input length: " ++ toString text.length ++ " chars"

/-- The demo response: `res.status(200).json({ summary, provider: "demo" })`. -/
def demoResponse (env : Env) (text : String) : Response :=
  { status := 200,
    body := { summary := some (demoSummary env text), provider := some "demo" } }

/-- The OpenAI fallback block of the handler, entered after the Gemini block
fell through. Mirrors the `if (process.env.OPENAI_API_KEY) { try ... catch }`
section and then the demo response. -/
def tryOpenAI (env : Env) (w : World) (text : String) :
    Response × List ProviderCall :=
  if env.openaiApiKey ≠ "" then
    match w.openaiOutcome with
    | .ok content =>
      let summary := ((content.map jsTrim).getD "")
      if summary ≠ "" then
        ({ status := 200,
           body := { summary := some summary, provider := some "openai",
                     model := some "gpt-4o-mini" } }, [.openai])
      else
        -- `throw new Error("OpenAI returned an empty response.")` is caught
        -- by the same catch; the message has no quota marker, so fall through.
        (demoResponse env text, [.openai])
    | .err message =>
      if strContains message "exceeded your current quota" then
        ({ status := 429,
           body := { error := some "OpenAI quota exceeded. Check plan/billing or use Gemini.",
                     provider := some "openai" } }, [.openai])
      else
        (demoResponse env text, [.openai])
  else
    (demoResponse env text, [])

/-- The Gemini-first block of the handler body, once `Body.parse` succeeded:
`if (process.env.GEMINI_API_KEY) { try ... catch { /* fall through */ } }`
followed by the OpenAI fallback and the demo response. -/
def tryProviders (env : Env) (w : World) (text : String) :
    Response × List ProviderCall :=
  if env.geminiApiKey ≠ "" then
    match w.geminiOutcome with
    | .ok t =>
      let summary := jsTrim t
      if summary ≠ "" then
        ({ status := 200,
           body := { summary := some summary, provider := some "gemini",
                     model := some (GEMINI_MODEL env) } }, [.gemini])
      else
        let (r, calls) := tryOpenAI env w text
        (r, .gemini :: calls)
    | .err _ =>
      let (r, calls) := tryOpenAI env w text
      (r, .gemini :: calls)
  else
    tryOpenAI env w text

/-- The outer `catch (err)` of the handler: substring dispatch on
`String(err?.message || err)`. -/
def outerCatch (env : Env) (msg : String) : Response :=
  if strContains msg "ListModels" ∨ strContains msg "404 Not Found" ∨
      strContains msg "models/gemini-pro" then
    { status := 400,
      body := { error := some "Gemini model unavailable. Use 'gemini-2.0-flash' or 'gemini-2.5-flash-lite' and ensure Generative Language API is enabled.",
                provider := some "gemini", model := some (GEMINI_MODEL env) } }
  else if strContains msg "at \"text\"" then
    { status := 400,
      body := { error := some "Invalid body. Provide non-empty 'text' ≤ 20,000 chars." } }
  else
    { status := 500, body := { error := some "Unexpected server error. Check server logs." } }

/-- The `POST /api/summarize` handler body (after `checkJwtJose` let the
request through): zod parse inside the outer try, then the provider chain.
The only throw that reaches the outer catch is the `ZodError` from
`Body.parse`; both adapter blocks catch their own errors. -/
def summarizeHandler (env : Env) (w : World) (body : BodyVal) :
    Response × List ProviderCall :=
  match bodyParse body with
  | .error _ => (outerCatch env w.zodErrorMsg, [])
  | .ok text => tryProviders env w text

/-- An inbound request as seen by the middleware chain: raw JSON body size in
bytes, `Authorization` header, and the parsed body's `text` field. -/
structure RawRequest where
  bodySize : Nat
  authorization : Option String
  body : BodyVal
deriving Repr, DecidableEq

/-- `express.json({ limit: "1mb" })`: the byte ceiling, 1 MiB
(the `bytes` library parses `"1mb"` as 1024 * 1024). -/
def jsonLimitBytes : Nat := 1048576

/-- Modelled from the spec: the body-parsing middleware is third-party
(`express.json`); per its documented contract a body over the configured
limit is rejected with HTTP 413 by the default error handler (a non-JSON
body, so no JSON fields) before any later middleware runs. -/
def payloadTooLarge : Response := { status := 413, body := {} }

/-- Everything observable about one handled request. -/
structure ReqOutcome where
  response : Response
  providerCalls : List ProviderCall
  jwtCheckRan : Bool
  verifyAttempted : Bool
  bodyParseRan : Bool
deriving Repr, DecidableEq

/-- The full middleware chain for `POST /api/summarize` in registration
order: `express.json({ limit: "1mb" })`, then `checkJwtJose`, then the
handler. -/
def handleRequest (env : Env) (w : World) (req : RawRequest) : ReqOutcome :=
  if req.bodySize > jsonLimitBytes then
    { response := payloadTooLarge, providerCalls := [],
      jwtCheckRan := false, verifyAttempted := false, bodyParseRan := false }
  else
    let check := checkJwtJose env w req.authorization
    match check.blocked with
    | some r =>
      { response := r, providerCalls := [],
        jwtCheckRan := true, verifyAttempted := check.verifyAttempted,
        bodyParseRan := false }
    | none =>
      let (r, calls) := summarizeHandler env w req.body
      { response := r, providerCalls := calls,
        jwtCheckRan := true, verifyAttempted := check.verifyAttempted,
        bodyParseRan := true }

/-! ## Helper lemmas about `strContains` -/

theorem strContains_intro (hs n : String) (a c : List Char)
    (h : hs.data = a ++ (n.data ++ c)) : strContains hs n = true := by
  unfold strContains
  rw [List.any_eq_true]
  refine ⟨a.length, List.mem_range.mpr ?_, ?_⟩
  · rw [h]; simp [List.length_append]; omega
  · rw [h, List.drop_left, List.isPrefixOf_iff_prefix]
    exact List.prefix_append _ _

theorem strContains_elim (hs n : String) (h : strContains hs n = true) :
    ∃ a c : List Char, hs.data = a ++ (n.data ++ c) := by
  unfold strContains at h
  rw [List.any_eq_true] at h
  obtain ⟨i, _, hp⟩ := h
  rw [List.isPrefixOf_iff_prefix] at hp
  obtain ⟨t, ht⟩ := hp
  exact ⟨hs.data.take i, t, by rw [ht, List.take_append_drop]⟩

theorem strContains_self (s : String) : strContains s s = true :=
  strContains_intro s s [] [] (by simp)

theorem strContains_append_of_left (a b n : String) (h : strContains a n = true) :
    strContains (a ++ b) n = true := by
  obtain ⟨x, c, hx⟩ := strContains_elim a n h
  exact strContains_intro _ _ x (c ++ b.data) (by rw [String.data_append, hx]; simp)

theorem strContains_append_of_right (a b n : String) (h : strContains b n = true) :
    strContains (a ++ b) n = true := by
  obtain ⟨x, c, hx⟩ := strContains_elim b n h
  exact strContains_intro _ _ (a.data ++ x) c (by rw [String.data_append, hx]; simp)

/-! ## Content of the demo summary -/

theorem demoSummary_contains_marker (env : Env) (t : String) :
    strContains (demoSummary env t) "No AI provider responded" = true := by
  unfold demoSummary
  apply strContains_append_of_left
  apply strContains_append_of_left
  apply strContains_append_of_left
  apply strContains_append_of_left
  apply strContains_append_of_left
  apply strContains_append_of_left
  apply strContains_append_of_left
  apply strContains_append_of_left
  decide

theorem demoSummary_contains_model (env : Env) (t : String) :
    strContains (demoSummary env t) (GEMINI_MODEL env) = true := by
  unfold demoSummary
  apply strContains_append_of_left
  apply strContains_append_of_left
  apply strContains_append_of_left
  apply strContains_append_of_left
  apply strContains_append_of_left
  apply strContains_append_of_left
  apply strContains_append_of_right
  exact strContains_self _

theorem demoSummary_contains_hint (env : Env) (t : String) :
    strContains (demoSummary env t) "set GEMINI_API_KEY" = true := by
  unfold demoSummary
  apply strContains_append_of_left
  apply strContains_append_of_left
  apply strContains_append_of_left
  apply strContains_append_of_left
  apply strContains_append_of_right
  decide

theorem demoSummary_contains_length (env : Env) (t : String) :
    strContains (demoSummary env t)
      ("• Input length: " ++ toString t.length ++ " chars") = true := by
  apply strContains_intro _ _
      (("• (Demo) No AI provider responded\n" ++ "• Gemini model tried: " ++
        GEMINI_MODEL env ++ "\n" ++
        "• Tip: set GEMINI_API_KEY (AI Studio) with gemini-2.0-flash\n" ++
        "• Or add OPENAI_API_KEY (with quota)\n").data) []
  simp only [demoSummary, String.data_append, List.append_assoc, List.append_nil]

/-! ## Reduction lemmas for the pipeline -/

theorem handleRequest_pass (env : Env) (w : World) (req : RawRequest)
    (hsize : req.bodySize ≤ jsonLimitBytes)
    (hauth : (checkJwtJose env w req.authorization).blocked = none) :
    handleRequest env w req =
      { response := (summarizeHandler env w req.body).1,
        providerCalls := (summarizeHandler env w req.body).2,
        jwtCheckRan := true,
        verifyAttempted := (checkJwtJose env w req.authorization).verifyAttempted,
        bodyParseRan := true } := by
  unfold handleRequest
  rw [if_neg (by omega)]
  simp only [hauth]

theorem handleRequest_blocked (env : Env) (w : World) (req : RawRequest)
    (hsize : req.bodySize ≤ jsonLimitBytes) (r : Response)
    (hauth : (checkJwtJose env w req.authorization).blocked = some r) :
    handleRequest env w req =
      { response := r, providerCalls := [],
        jwtCheckRan := true,
        verifyAttempted := (checkJwtJose env w req.authorization).verifyAttempted,
        bodyParseRan := false } := by
  unfold handleRequest
  rw [if_neg (by omega)]
  simp only [hauth]

theorem summarizeHandler_ok (env : Env) (w : World) (b : BodyVal) (t : String)
    (hb : bodyParse b = .ok t) :
    summarizeHandler env w b = tryProviders env w t := by
  unfold summarizeHandler
  rw [hb]

theorem summarizeHandler_err (env : Env) (w : World) (b : BodyVal)
    (hb : bodyParse b = .error ()) :
    summarizeHandler env w b = (outerCatch env w.zodErrorMsg, []) := by
  unfold summarizeHandler
  rw [hb]

theorem tryProviders_no_gemini (env : Env) (w : World) (t : String)
    (hk : env.geminiApiKey = "") :
    tryProviders env w t = tryOpenAI env w t := by
  unfold tryProviders
  rw [if_neg (by simp [hk])]

theorem tryProviders_gemini_success (env : Env) (w : World) (t s : String)
    (hk : env.geminiApiKey ≠ "") (ho : w.geminiOutcome = .ok s) (hs : jsTrim s ≠ "") :
    tryProviders env w t =
      ({ status := 200,
         body := { summary := some (jsTrim s), provider := some "gemini",
                   model := some (GEMINI_MODEL env) } }, [.gemini]) := by
  unfold tryProviders
  rw [if_pos hk, ho]
  simp only [hs, if_pos, ne_eq, not_false_eq_true, if_true]

theorem tryProviders_gemini_fallthrough (env : Env) (w : World) (t : String)
    (hk : env.geminiApiKey ≠ "")
    (h : (∃ m, w.geminiOutcome = .err m) ∨
         (∃ s, w.geminiOutcome = .ok s ∧ jsTrim s = "")) :
    tryProviders env w t = ((tryOpenAI env w t).1, .gemini :: (tryOpenAI env w t).2) := by
  unfold tryProviders
  rw [if_pos hk]
  rcases h with ⟨m, hm⟩ | ⟨s, hs, he⟩
  · rw [hm]
  · rw [hs]
    simp only [he, ne_eq, not_true_eq_false, if_false]

theorem tryOpenAI_no_key (env : Env) (w : World) (t : String)
    (hk : env.openaiApiKey = "") :
    tryOpenAI env w t = (demoResponse env t, []) := by
  unfold tryOpenAI
  rw [if_neg (by simp [hk])]

theorem tryOpenAI_success (env : Env) (w : World) (t c : String)
    (hk : env.openaiApiKey ≠ "") (ho : w.openaiOutcome = .ok (some c))
    (hc : jsTrim c ≠ "") :
    tryOpenAI env w t =
      ({ status := 200,
         body := { summary := some (jsTrim c), provider := some "openai",
                   model := some "gpt-4o-mini" } }, [.openai]) := by
  unfold tryOpenAI
  rw [if_pos hk, ho]
  simp [hc]

theorem tryOpenAI_quota (env : Env) (w : World) (t m : String)
    (hk : env.openaiApiKey ≠ "") (ho : w.openaiOutcome = .err m)
    (hq : strContains m "exceeded your current quota" = true) :
    tryOpenAI env w t =
      ({ status := 429,
         body := { error := some "OpenAI quota exceeded. Check plan/billing or use Gemini.",
                   provider := some "openai" } }, [.openai]) := by
  unfold tryOpenAI
  rw [if_pos hk, ho]
  simp [hq]

theorem tryOpenAI_demo (env : Env) (w : World) (t : String)
    (h : env.openaiApiKey = "" ∨
         (∃ m, w.openaiOutcome = .err m ∧
            strContains m "exceeded your current quota" = false) ∨
         (∃ c, w.openaiOutcome = .ok c ∧ ((c.map jsTrim).getD "") = "")) :
    (tryOpenAI env w t).1 = demoResponse env t := by
  unfold tryOpenAI
  rcases h with hk | ⟨m, hm, hq⟩ | ⟨c, hc, he⟩
  · rw [if_neg (by simp [hk])]
  · by_cases hk : env.openaiApiKey = ""
    · rw [if_neg (by simp [hk])]
    · rw [if_pos hk, hm]
      simp [hq]
  · by_cases hk : env.openaiApiKey = ""
    · rw [if_neg (by simp [hk])]
    · rw [if_pos hk, hc]
      simp only [he, ne_eq, not_true_eq_false, if_false]

theorem tryOpenAI_calls (env : Env) (w : World) (t : String)
    (hk : env.openaiApiKey ≠ "") : (tryOpenAI env w t).2 = [.openai] := by
  unfold tryOpenAI
  rw [if_pos hk]
  cases w.openaiOutcome <;> dsimp only <;> split <;> rfl

theorem tryProviders_fall_resp (env : Env) (w : World) (t : String)
    (hk : env.geminiApiKey ≠ "")
    (h : (∃ m, w.geminiOutcome = .err m) ∨
         (∃ s, w.geminiOutcome = .ok s ∧ jsTrim s = "")) :
    (tryProviders env w t).1 = (tryOpenAI env w t).1 := by
  rw [tryProviders_gemini_fallthrough env w t hk h]

theorem tryProviders_fall_calls (env : Env) (w : World) (t : String)
    (hk : env.geminiApiKey ≠ "")
    (h : (∃ m, w.geminiOutcome = .err m) ∨
         (∃ s, w.geminiOutcome = .ok s ∧ jsTrim s = "")) :
    (tryProviders env w t).2 = .gemini :: (tryOpenAI env w t).2 := by
  rw [tryProviders_gemini_fallthrough env w t hk h]

theorem handleRequest_pass_response (env : Env) (w : World) (req : RawRequest)
    (hsize : req.bodySize ≤ jsonLimitBytes)
    (hauth : (checkJwtJose env w req.authorization).blocked = none) :
    (handleRequest env w req).response = (summarizeHandler env w req.body).1 := by
  rw [handleRequest_pass env w req hsize hauth]

theorem handleRequest_pass_calls (env : Env) (w : World) (req : RawRequest)
    (hsize : req.bodySize ≤ jsonLimitBytes)
    (hauth : (checkJwtJose env w req.authorization).blocked = none) :
    (handleRequest env w req).providerCalls = (summarizeHandler env w req.body).2 := by
  rw [handleRequest_pass env w req hsize hauth]

theorem ISSUER_ne (env : Env) (hdom : env.auth0Domain ≠ "") : ISSUER env ≠ "" := by
  unfold ISSUER
  rw [if_neg hdom]
  intro h
  have hlen := congrArg String.length h
  simp [String.length_append] at hlen
  exact absurd hlen.1.1 (by decide)

theorem checkJwtJose_notConfigured (env : Env) (w : World) (a : Option String)
    (hcfg : env.auth0Domain = "" ∨ env.auth0Audience = "") :
    checkJwtJose env w a =
      { blocked := some (unauthorized
          (some "Auth not configured on server (missing AUTH0_* envs).")),
        verifyAttempted := false } := by
  unfold checkJwtJose
  rcases hcfg with h | h
  · rw [if_pos (Or.inl (by simp [hasJWKS, h]))]
  · rw [if_pos (Or.inr (Or.inl h))]

theorem checkJwtJose_configured_malformed (env : Env) (w : World) (a : Option String)
    (hdom : env.auth0Domain ≠ "") (haud : env.auth0Audience ≠ "")
    (h : malformedAuthHeader a = true) :
    checkJwtJose env w a =
      { blocked := some (unauthorized (some "Missing Bearer token")),
        verifyAttempted := false } := by
  unfold checkJwtJose
  rw [if_neg ?_, if_pos h]
  push_neg
  exact ⟨by simp [hasJWKS, hdom], haud, ISSUER_ne env hdom⟩

theorem checkJwtJose_blocked_shape (env : Env) (w : World) (a : Option String)
    (r : Response) (h : (checkJwtJose env w a).blocked = some r) :
    ∃ d, r = unauthorized (some d) := by
  unfold checkJwtJose at h
  split at h
  · exact ⟨_, (Option.some.injEq .. ▸ h).symm⟩
  · split at h
    · exact ⟨_, (Option.some.injEq .. ▸ h).symm⟩
    · split at h
      · simp at h
      · exact ⟨_, (Option.some.injEq .. ▸ h).symm⟩

theorem outerCatch_validation (env : Env) (m : String)
    (h1 : strContains m "ListModels" = false)
    (h2 : strContains m "404 Not Found" = false)
    (h3 : strContains m "models/gemini-pro" = false)
    (h4 : strContains m "at \"text\"" = true) :
    outerCatch env m =
      { status := 400,
        body := { error := some "Invalid body. Provide non-empty 'text' ≤ 20,000 chars." } } := by
  unfold outerCatch
  rw [if_neg (by simp [h1, h2, h3]), if_pos (by simp [h4])]

theorem outerCatch_resp_cases (env : Env) (m : String) :
    outerCatch env m =
      { status := 400,
        body := { error := some "Gemini model unavailable. Use 'gemini-2.0-flash' or 'gemini-2.5-flash-lite' and ensure Generative Language API is enabled.",
                  provider := some "gemini", model := some (GEMINI_MODEL env) } } ∨
    outerCatch env m =
      { status := 400,
        body := { error := some "Invalid body. Provide non-empty 'text' ≤ 20,000 chars." } } ∨
    outerCatch env m =
      { status := 500, body := { error := some "Unexpected server error. Check server logs." } } := by
  unfold outerCatch
  split
  · exact Or.inl rfl
  · split
    · exact Or.inr (Or.inl rfl)
    · exact Or.inr (Or.inr rfl)

theorem tryOpenAI_resp_cases (env : Env) (w : World) (t : String) :
    (∃ s, (tryOpenAI env w t).1 =
      { status := 200,
        body := { summary := some s, provider := some "openai",
                  model := some "gpt-4o-mini" } }) ∨
    (tryOpenAI env w t).1 =
      { status := 429,
        body := { error := some "OpenAI quota exceeded. Check plan/billing or use Gemini.",
                  provider := some "openai" } } ∨
    (tryOpenAI env w t).1 = demoResponse env t := by
  by_cases hk : env.openaiApiKey = ""
  · exact Or.inr (Or.inr (by rw [tryOpenAI_no_key env w t hk]))
  · cases ho : w.openaiOutcome with
    | ok c =>
      by_cases hc : ((c.map jsTrim).getD "") = ""
      · exact Or.inr (Or.inr (tryOpenAI_demo env w t (Or.inr (Or.inr ⟨c, ho, hc⟩))))
      · cases c with
        | none => simp at hc
        | some s =>
          refine Or.inl ⟨jsTrim s, ?_⟩
          rw [tryOpenAI_success env w t s hk ho (by simpa using hc)]
    | err m =>
      by_cases hq : strContains m "exceeded your current quota" = true
      · exact Or.inr (Or.inl (by rw [tryOpenAI_quota env w t m hk ho hq]))
      · exact Or.inr (Or.inr (tryOpenAI_demo env w t
          (Or.inr (Or.inl ⟨m, ho, by simpa using hq⟩))))

theorem tryProviders_resp_cases (env : Env) (w : World) (t : String) :
    (∃ s, (tryProviders env w t).1 =
      { status := 200,
        body := { summary := some s, provider := some "gemini",
                  model := some (GEMINI_MODEL env) } }) ∨
    (∃ s, (tryProviders env w t).1 =
      { status := 200,
        body := { summary := some s, provider := some "openai",
                  model := some "gpt-4o-mini" } }) ∨
    (tryProviders env w t).1 =
      { status := 429,
        body := { error := some "OpenAI quota exceeded. Check plan/billing or use Gemini.",
                  provider := some "openai" } } ∨
    (tryProviders env w t).1 = demoResponse env t := by
  by_cases hk : env.geminiApiKey = ""
  · rw [tryProviders_no_gemini env w t hk]
    exact Or.inr (tryOpenAI_resp_cases env w t)
  · cases hg : w.geminiOutcome with
    | ok s =>
      by_cases hs : jsTrim s = ""
      · rw [tryProviders_fall_resp env w t hk (Or.inr ⟨s, hg, hs⟩)]
        exact Or.inr (tryOpenAI_resp_cases env w t)
      · refine Or.inl ⟨jsTrim s, ?_⟩
        rw [tryProviders_gemini_success env w t s hk hg hs]
    | err m =>
      rw [tryProviders_fall_resp env w t hk (Or.inl ⟨m, hg⟩)]
      exact Or.inr (tryOpenAI_resp_cases env w t)

/-! ## Concrete fixtures for counterexamples and witnesses -/

/-- Auth fully configured, both provider API keys set, default Gemini model. -/
def envBoth : Env :=
  { geminiApiKey := "gk", openaiApiKey := "ok-key", geminiModelEnv := "",
    auth0Domain := "dev-x.us.auth0.com", auth0Audience := "https://summaraize.api" }

def envGeminiOnly : Env := { envBoth with openaiApiKey := "" }

def envOpenAIOnly : Env := { envBoth with geminiApiKey := "" }

def envNoProviders : Env := { envBoth with geminiApiKey := "", openaiApiKey := "" }

def envNoAuth : Env := { envBoth with auth0Domain := "" }

/-- A quota-exhaustion error message as the vendor SDKs word it (the handler
recognizes it by the substring `exceeded your current quota`). -/
def quotaMsg : String :=
  "You exceeded your current quota, please check your plan and billing details."

/-- A Gemini model/endpoint misconfiguration message carrying the
`404 Not Found` marker the outer catch looks for. -/
def gemini404Msg : String :=
  "[404 Not Found] models/gemini-2.0-flash is not found for API version v1"

/-- Both adapters would succeed, the token verifies, and the zod error message
names the failing `text` path. -/
def baseWorld : World :=
  { geminiOutcome := .ok "• g1\n• g2", openaiOutcome := .ok (some "• o1"),
    jwtVerifyOk := true, jwtErrorMsg := "signature verification failed",
    zodErrorMsg := "1 validation issue(s): too_small at \"text\"" }

def wGeminiQuota : World := { baseWorld with geminiOutcome := .err quotaMsg }

def wOpenAIQuota : World :=
  { baseWorld with geminiOutcome := .err "network error", openaiOutcome := .err quotaMsg }

def wGemini404 : World := { baseWorld with geminiOutcome := .err gemini404Msg }

def reqHello : RawRequest :=
  { bodySize := 100, authorization := some "Bearer tok", body := .str "hello" }

def reqEmptyText : RawRequest :=
  { bodySize := 100, authorization := some "Bearer tok", body := .str "" }

def reqNoAuthHeader : RawRequest :=
  { bodySize := 100, authorization := none, body := .str "hello" }

def reqBadScheme : RawRequest :=
  { bodySize := 100, authorization := some "Basic abc123", body := .str "hello" }

def reqHuge : RawRequest :=
  { bodySize := 2000000, authorization := some "Bearer tok", body := .str "hello" }

/-! ## Claims -/

/-- C1, counterexample: Gemini is the sole configured adapter and fails with a
quota-exhaustion message, yet the gateway answers HTTP 200 with the demo
fallback rather than the 429 the claim requires for "whichever adapter
(Gemini or OpenAI) is the sole one". -/
theorem gemini_sole_quota_demo_cex :
    (handleRequest envGeminiOnly wGeminiQuota reqHello).response.status = 200 ∧
    (handleRequest envGeminiOnly wGeminiQuota reqHello).response.body.provider = some "demo" ∧
    ¬ (handleRequest envGeminiOnly wGeminiQuota reqHello).response.status = 429 := by
  decide

/-- C1, amended: the quota short-circuit is implemented only for the OpenAI
adapter, the last of the chain. If OpenAI is configured and fails with a
quota message, the response is the terminal 429 quota error (regardless of
how Gemini fell through). A Gemini quota failure is swallowed by the Gemini
catch: with OpenAI configured it falls through to OpenAI, and with Gemini as
the sole adapter it degrades to the 200 demo fallback, not 429. -/
theorem quota_short_circuit_openai_last (env : Env) (w : World) (req : RawRequest)
    (hsize : req.bodySize ≤ jsonLimitBytes)
    (hauth : (checkJwtJose env w req.authorization).blocked = none)
    (t : String) (hb : bodyParse req.body = .ok t) :
    (∀ m, env.openaiApiKey ≠ "" → w.openaiOutcome = .err m →
       strContains m "exceeded your current quota" = true →
       (env.geminiApiKey = "" ∨ (∃ gm, w.geminiOutcome = .err gm) ∨
        (∃ s, w.geminiOutcome = .ok s ∧ jsTrim s = "")) →
       (handleRequest env w req).response.status = 429 ∧
       (handleRequest env w req).response.body.provider = some "openai" ∧
       (handleRequest env w req).response.body.error =
         some "OpenAI quota exceeded. Check plan/billing or use Gemini.") ∧
    (∀ gm, env.geminiApiKey ≠ "" → w.geminiOutcome = .err gm →
       env.openaiApiKey ≠ "" →
       ProviderCall.openai ∈ (handleRequest env w req).providerCalls) ∧
    (∀ gm, env.geminiApiKey ≠ "" → w.geminiOutcome = .err gm →
       strContains gm "exceeded your current quota" = true →
       env.openaiApiKey = "" →
       (handleRequest env w req).response.status = 200 ∧
       (handleRequest env w req).response.body.provider = some "demo" ∧
       ¬ (handleRequest env w req).response.status = 429) := by
  refine ⟨?_, ?_, ?_⟩
  · intro m hok ho hq hgem
    rw [handleRequest_pass_response env w req hsize hauth,
        summarizeHandler_ok env w req.body t hb]
    by_cases hk : env.geminiApiKey = ""
    · rw [tryProviders_no_gemini env w t hk, tryOpenAI_quota env w t m hok ho hq]
      exact ⟨rfl, rfl, rfl⟩
    · rcases hgem with h | h | h
      · exact absurd h hk
      · rw [tryProviders_fall_resp env w t hk (Or.inl h),
            tryOpenAI_quota env w t m hok ho hq]
        exact ⟨rfl, rfl, rfl⟩
      · rw [tryProviders_fall_resp env w t hk (Or.inr h),
            tryOpenAI_quota env w t m hok ho hq]
        exact ⟨rfl, rfl, rfl⟩
  · intro gm hk ho hok
    rw [handleRequest_pass_calls env w req hsize hauth,
        summarizeHandler_ok env w req.body t hb,
        tryProviders_fall_calls env w t hk (Or.inl ⟨gm, ho⟩),
        tryOpenAI_calls env w t hok]
    simp
  · intro gm hk ho _ hok
    rw [handleRequest_pass_response env w req hsize hauth,
        summarizeHandler_ok env w req.body t hb,
        tryProviders_fall_resp env w t hk (Or.inl ⟨gm, ho⟩),
        tryOpenAI_demo env w t (Or.inl hok)]
    exact ⟨rfl, rfl, by simp [demoResponse]⟩

theorem quota_short_circuit_openai_last_witness :
    (handleRequest envOpenAIOnly wOpenAIQuota reqHello).response.status = 429 ∧
    (handleRequest envOpenAIOnly wOpenAIQuota reqHello).response.body.provider = some "openai" := by
  have h := (quota_short_circuit_openai_last envOpenAIOnly wOpenAIQuota reqHello
      (by decide) (by decide) "hello" rfl).1 quotaMsg (by decide) rfl (by decide) (Or.inl rfl)
  exact ⟨h.1, h.2.1⟩

/-- C2: adapters run in the fixed order Gemini then OpenAI, and the first
non-empty summary wins: a Gemini success answers with provider `"gemini"`
and the configured model without ever invoking OpenAI; a non-quota Gemini
failure followed by an OpenAI success answers with provider `"openai"`,
model `"gpt-4o-mini"`, after invoking both adapters in order. -/
theorem adapter_order_first_success (env : Env) (w : World) (req : RawRequest)
    (hsize : req.bodySize ≤ jsonLimitBytes)
    (hauth : (checkJwtJose env w req.authorization).blocked = none)
    (t : String) (hb : bodyParse req.body = .ok t) :
    (∀ s, env.geminiApiKey ≠ "" → w.geminiOutcome = .ok s → jsTrim s ≠ "" →
       (handleRequest env w req).response =
         { status := 200,
           body := { summary := some (jsTrim s), provider := some "gemini",
                     model := some (GEMINI_MODEL env) } } ∧
       (handleRequest env w req).providerCalls = [.gemini]) ∧
    (∀ gm c, env.geminiApiKey ≠ "" → env.openaiApiKey ≠ "" →
       w.geminiOutcome = .err gm →
       strContains gm "exceeded your current quota" = false →
       w.openaiOutcome = .ok (some c) → jsTrim c ≠ "" →
       (handleRequest env w req).response =
         { status := 200,
           body := { summary := some (jsTrim c), provider := some "openai",
                     model := some "gpt-4o-mini" } } ∧
       (handleRequest env w req).providerCalls = [.gemini, .openai]) := by
  constructor
  · intro s hk ho hs
    rw [handleRequest_pass_response env w req hsize hauth,
        handleRequest_pass_calls env w req hsize hauth,
        summarizeHandler_ok env w req.body t hb,
        tryProviders_gemini_success env w t s hk ho hs]
    exact ⟨rfl, rfl⟩
  · intro gm c hk hok hg _ ho hc
    rw [handleRequest_pass_response env w req hsize hauth,
        handleRequest_pass_calls env w req hsize hauth,
        summarizeHandler_ok env w req.body t hb,
        tryProviders_fall_resp env w t hk (Or.inl ⟨gm, hg⟩),
        tryProviders_fall_calls env w t hk (Or.inl ⟨gm, hg⟩),
        tryOpenAI_success env w t c hok ho hc]
    exact ⟨rfl, rfl⟩

theorem adapter_order_first_success_witness :
    (handleRequest envBoth baseWorld reqHello).response.body.provider = some "gemini" ∧
    (handleRequest envBoth baseWorld reqHello).providerCalls = [.gemini] := by
  have h := (adapter_order_first_success envBoth baseWorld reqHello
      (by decide) (by decide) "hello" rfl).1 "• g1\n• g2" (by decide) rfl (by decide)
  exact ⟨by rw [h.1], h.2⟩

/-- C3: whenever every configured adapter fails without the terminal OpenAI
quota condition — including when no adapter is configured — the gateway
answers HTTP 200 with provider `"demo"` and the deterministic placeholder
summary, which contains the no-provider marker, the configured Gemini model
identifier, the configuration hint, and the exact character length of the
input text. -/
theorem demo_fallback_content (env : Env) (w : World) (req : RawRequest)
    (hsize : req.bodySize ≤ jsonLimitBytes)
    (hauth : (checkJwtJose env w req.authorization).blocked = none)
    (t : String) (hb : bodyParse req.body = .ok t)
    (hgem : env.geminiApiKey = "" ∨ (∃ m, w.geminiOutcome = .err m) ∨
            (∃ s, w.geminiOutcome = .ok s ∧ jsTrim s = ""))
    (hoai : env.openaiApiKey = "" ∨
            (∃ m, w.openaiOutcome = .err m ∧
               strContains m "exceeded your current quota" = false) ∨
            (∃ c, w.openaiOutcome = .ok c ∧ ((c.map jsTrim).getD "") = "")) :
    (handleRequest env w req).response.status = 200 ∧
    (handleRequest env w req).response.body.provider = some "demo" ∧
    (handleRequest env w req).response.body.summary = some (demoSummary env t) ∧
    strContains (demoSummary env t) "No AI provider responded" = true ∧
    strContains (demoSummary env t) (GEMINI_MODEL env) = true ∧
    strContains (demoSummary env t) "set GEMINI_API_KEY" = true ∧
    strContains (demoSummary env t)
      ("• Input length: " ++ toString t.length ++ " chars") = true := by
  have hres : (handleRequest env w req).response = demoResponse env t := by
    rw [handleRequest_pass_response env w req hsize hauth,
        summarizeHandler_ok env w req.body t hb]
    by_cases hk : env.geminiApiKey = ""
    · rw [tryProviders_no_gemini env w t hk]
      exact tryOpenAI_demo env w t hoai
    · rcases hgem with h | h | h
      · exact absurd h hk
      · rw [tryProviders_fall_resp env w t hk (Or.inl h)]
        exact tryOpenAI_demo env w t hoai
      · rw [tryProviders_fall_resp env w t hk (Or.inr h)]
        exact tryOpenAI_demo env w t hoai
  rw [hres]
  exact ⟨rfl, rfl, rfl, demoSummary_contains_marker env t,
         demoSummary_contains_model env t, demoSummary_contains_hint env t,
         demoSummary_contains_length env t⟩

theorem demo_fallback_content_witness :
    (handleRequest envNoProviders baseWorld reqHello).response.status = 200 ∧
    (handleRequest envNoProviders baseWorld reqHello).response.body.provider = some "demo" := by
  have h := demo_fallback_content envNoProviders baseWorld reqHello
      (by decide) (by decide) "hello" rfl (Or.inl rfl) (Or.inl rfl)
  exact ⟨h.1, h.2.1⟩

/-- C4: validation accepts exactly the string bodies of length 1 to 20000
(returning the text unchanged, never clipped), rejects a missing or
non-string `text` field, and a failed parse is answered with the Validation
400 without invoking any provider (given the zod error message naming the
`text` path as the handler's substring check expects). -/
theorem validation_bounds_and_400 (env : Env) (w : World) (req : RawRequest)
    (hsize : req.bodySize ≤ jsonLimitBytes)
    (hauth : (checkJwtJose env w req.authorization).blocked = none)
    (hfail : bodyParse req.body = .error ())
    (h1 : strContains w.zodErrorMsg "ListModels" = false)
    (h2 : strContains w.zodErrorMsg "404 Not Found" = false)
    (h3 : strContains w.zodErrorMsg "models/gemini-pro" = false)
    (h4 : strContains w.zodErrorMsg "at \"text\"" = true) :
    (∀ s, bodyParse (.str s) = .ok s ↔ 1 ≤ s.length ∧ s.length ≤ 20000) ∧
    bodyParse .missing = .error () ∧
    bodyParse .notString = .error () ∧
    (handleRequest env w req).response =
      { status := 400,
        body := { error := some "Invalid body. Provide non-empty 'text' ≤ 20,000 chars." } } ∧
    (handleRequest env w req).providerCalls = [] := by
  refine ⟨?_, rfl, rfl, ?_, ?_⟩
  · intro s
    unfold bodyParse
    split <;> simp_all
  · rw [handleRequest_pass_response env w req hsize hauth,
        summarizeHandler_err env w req.body hfail]
    exact outerCatch_validation env w.zodErrorMsg h1 h2 h3 h4
  · rw [handleRequest_pass_calls env w req hsize hauth,
        summarizeHandler_err env w req.body hfail]

theorem validation_bounds_and_400_witness :
    (handleRequest envBoth baseWorld reqEmptyText).response.status = 400 ∧
    (handleRequest envBoth baseWorld reqEmptyText).providerCalls = [] := by
  have h := validation_bounds_and_400 envBoth baseWorld reqEmptyText
      (by decide) (by decide) rfl (by decide) (by decide) (by decide) (by decide)
  exact ⟨by rw [h.2.2.2.1], h.2.2.2.2⟩

/-- C5, counterexample: the 401 issued for a request with no Authorization
header carries no `provider` field, refuting "every response carries a
provider tag". -/
theorem response_without_provider_cex :
    (handleRequest envBoth baseWorld reqNoAuthHeader).response.status = 401 ∧
    (handleRequest envBoth baseWorld reqNoAuthHeader).response.body.provider = none := by
  decide

/-- C5, amended: every request (within the body-parser limit) produces exactly
one of a success and an error shape: a 200 response always carries a summary
and a provider tag and no error field, a 429 always carries a provider tag,
and every non-200 response carries an error and no summary — but the
validation 400, the 401 and the 500 carry no provider tag. -/
theorem one_result_provider_tags (env : Env) (w : World) (req : RawRequest)
    (hsize : req.bodySize ≤ jsonLimitBytes) :
    ((handleRequest env w req).response.status = 200 →
       (handleRequest env w req).response.body.summary.isSome = true ∧
       (handleRequest env w req).response.body.provider.isSome = true ∧
       (handleRequest env w req).response.body.error = none) ∧
    ((handleRequest env w req).response.status = 429 →
       (handleRequest env w req).response.body.provider.isSome = true) ∧
    (¬ (handleRequest env w req).response.status = 200 →
       (handleRequest env w req).response.body.error.isSome = true ∧
       (handleRequest env w req).response.body.summary = none) := by
  cases hb : (checkJwtJose env w req.authorization).blocked with
  | some r =>
    obtain ⟨d, rfl⟩ := checkJwtJose_blocked_shape env w req.authorization r hb
    rw [handleRequest_blocked env w req hsize _ hb]
    exact ⟨fun h => by simp [unauthorized] at h, fun h => by simp [unauthorized] at h,
           fun _ => ⟨rfl, rfl⟩⟩
  | none =>
    rw [handleRequest_pass_response env w req hsize hb]
    cases hp : bodyParse req.body with
    | error e =>
      cases e
      rw [summarizeHandler_err env w req.body hp]
      rcases outerCatch_resp_cases env w.zodErrorMsg with h | h | h <;> rw [h] <;>
        exact ⟨fun hcon => by simp at hcon, fun hcon => by simp at hcon,
               fun _ => ⟨rfl, rfl⟩⟩
    | ok t =>
      rw [summarizeHandler_ok env w req.body t hp]
      rcases tryProviders_resp_cases env w t with ⟨s, h⟩ | ⟨s, h⟩ | h | h <;> rw [h]
      · exact ⟨fun _ => ⟨rfl, rfl, rfl⟩, fun hcon => by simp at hcon,
               fun hcon => absurd rfl hcon⟩
      · exact ⟨fun _ => ⟨rfl, rfl, rfl⟩, fun hcon => by simp at hcon,
               fun hcon => absurd rfl hcon⟩
      · exact ⟨fun hcon => by simp at hcon, fun _ => rfl, fun _ => ⟨rfl, rfl⟩⟩
      · exact ⟨fun _ => ⟨rfl, rfl, rfl⟩, fun hcon => by simp [demoResponse] at hcon,
               fun hcon => absurd rfl hcon⟩

theorem one_result_provider_tags_witness :
    (handleRequest envBoth baseWorld reqHello).response.body.provider.isSome = true := by
  have h := (one_result_provider_tags envBoth baseWorld reqHello (by decide)).1 (by decide)
  exact h.2.1

/-- C6: a request whose Authorization header is missing or malformed (not a
Bearer scheme with a non-empty token) is answered 401 with no provider
adapter invoked; and any request failing body validation invokes no provider
either. -/
theorem auth_validation_no_provider_calls (env : Env) (w : World) (req : RawRequest)
    (hsize : req.bodySize ≤ jsonLimitBytes) :
    (malformedAuthHeader req.authorization = true →
       (handleRequest env w req).response.status = 401 ∧
       (handleRequest env w req).providerCalls = []) ∧
    (bodyParse req.body = .error () →
       (handleRequest env w req).providerCalls = []) := by
  constructor
  · intro hmal
    by_cases hcfg : env.auth0Domain = "" ∨ env.auth0Audience = ""
    · have hc := checkJwtJose_notConfigured env w req.authorization hcfg
      have hbl : (checkJwtJose env w req.authorization).blocked =
          some (unauthorized (some "Auth not configured on server (missing AUTH0_* envs).")) := by
        rw [hc]
      rw [handleRequest_blocked env w req hsize _ hbl]
      exact ⟨rfl, rfl⟩
    · push_neg at hcfg
      have hc := checkJwtJose_configured_malformed env w req.authorization hcfg.1 hcfg.2 hmal
      have hbl : (checkJwtJose env w req.authorization).blocked =
          some (unauthorized (some "Missing Bearer token")) := by
        rw [hc]
      rw [handleRequest_blocked env w req hsize _ hbl]
      exact ⟨rfl, rfl⟩
  · intro hfail
    cases hb : (checkJwtJose env w req.authorization).blocked with
    | some r =>
      rw [handleRequest_blocked env w req hsize r hb]
    | none =>
      rw [handleRequest_pass_calls env w req hsize hb,
          summarizeHandler_err env w req.body hfail]

theorem auth_validation_no_provider_calls_witness :
    (handleRequest envBoth baseWorld reqBadScheme).response.status = 401 ∧
    (handleRequest envBoth baseWorld reqBadScheme).providerCalls = [] := by
  exact (auth_validation_no_provider_calls envBoth baseWorld reqBadScheme (by decide)).1
    (by decide)

/-- C7, counterexample: the sole configured adapter (Gemini) fails with a
model-misconfiguration message (`404 Not Found`), yet the gateway answers
200 with the demo fallback: the inner Gemini catch swallows the error, so
the outer catch's ProviderMisconfigured 400 mapping never sees it. -/
theorem gemini_misconfig_demo_cex :
    (handleRequest envGeminiOnly wGemini404 reqHello).response.status = 200 ∧
    (handleRequest envGeminiOnly wGemini404 reqHello).response.body.provider = some "demo" ∧
    ¬ (handleRequest envGeminiOnly wGemini404 reqHello).response.status = 400 := by
  decide

/-- C7, amended: a Gemini adapter failure — including one whose message marks
a model/endpoint misconfiguration — is swallowed by the adapter's catch and
falls through like any other failure: to OpenAI when configured, otherwise
to the 200 demo fallback; the ProviderMisconfigured 400 response is never
produced from an adapter failure. -/
theorem gemini_misconfig_falls_through (env : Env) (w : World) (req : RawRequest)
    (hsize : req.bodySize ≤ jsonLimitBytes)
    (hauth : (checkJwtJose env w req.authorization).blocked = none)
    (t : String) (hb : bodyParse req.body = .ok t)
    (gm : String) (hk : env.geminiApiKey ≠ "") (ho : w.geminiOutcome = .err gm) :
    (env.openaiApiKey = "" →
       (handleRequest env w req).response = demoResponse env t ∧
       (handleRequest env w req).response.status = 200) ∧
    (env.openaiApiKey ≠ "" →
       (handleRequest env w req).providerCalls = [.gemini, .openai]) ∧
    (handleRequest env w req).response.body.error ≠
      some "Gemini model unavailable. Use 'gemini-2.0-flash' or 'gemini-2.5-flash-lite' and ensure Generative Language API is enabled." := by
  have hresp : (handleRequest env w req).response = (tryOpenAI env w t).1 := by
    rw [handleRequest_pass_response env w req hsize hauth,
        summarizeHandler_ok env w req.body t hb,
        tryProviders_fall_resp env w t hk (Or.inl ⟨gm, ho⟩)]
  refine ⟨?_, ?_, ?_⟩
  · intro hok
    rw [hresp, tryOpenAI_demo env w t (Or.inl hok)]
    exact ⟨rfl, rfl⟩
  · intro hok
    rw [handleRequest_pass_calls env w req hsize hauth,
        summarizeHandler_ok env w req.body t hb,
        tryProviders_fall_calls env w t hk (Or.inl ⟨gm, ho⟩),
        tryOpenAI_calls env w t hok]
  · rw [hresp]
    rcases tryOpenAI_resp_cases env w t with ⟨s, h⟩ | h | h <;> rw [h]
    · simp
    · decide
    · simp [demoResponse]

theorem gemini_misconfig_falls_through_witness :
    (handleRequest envGeminiOnly wGemini404 reqHello).response.status = 200 := by
  have h := (gemini_misconfig_falls_through envGeminiOnly wGemini404 reqHello
      (by decide) (by decide) "hello" rfl gemini404Msg (by decide) rfl).1 rfl
  exact h.2

/-- C8, counterexample: a malformed-scheme header (`Basic abc123`, token
present) and a missing-token header (`Bearer`) produce byte-identical 401
responses with the same detail `Missing Bearer token` — no detail
distinguishes the two cases. -/
theorem missing_vs_malformed_same_detail_cex :
    (checkJwtJose envBoth baseWorld (some "Basic abc123")) =
      { blocked := some (unauthorized (some "Missing Bearer token")),
        verifyAttempted := false } ∧
    (checkJwtJose envBoth baseWorld (some "Bearer")) =
      { blocked := some (unauthorized (some "Missing Bearer token")),
        verifyAttempted := false } ∧
    (checkJwtJose envBoth baseWorld (some "Basic abc123")) =
      (checkJwtJose envBoth baseWorld (some "Bearer")) := by
  decide

/-- C8, amended: with auth configured, a non-Bearer scheme or an empty/absent
token makes the verifier fail immediately (no `jwtVerify` attempt) with 401
and the single shared detail `Missing Bearer token` — the same message for
the missing-token and malformed-scheme cases. -/
theorem bearer_check_single_detail (env : Env) (w : World) (a : Option String)
    (hdom : env.auth0Domain ≠ "") (haud : env.auth0Audience ≠ "")
    (hmal : malformedAuthHeader a = true) :
    checkJwtJose env w a =
      { blocked := some (unauthorized (some "Missing Bearer token")),
        verifyAttempted := false } :=
  checkJwtJose_configured_malformed env w a hdom haud hmal

theorem bearer_check_single_detail_witness :
    checkJwtJose envBoth baseWorld (some "Basic xyz") =
      { blocked := some (unauthorized (some "Missing Bearer token")),
        verifyAttempted := false } :=
  bearer_check_single_detail envBoth baseWorld (some "Basic xyz")
    (by decide) (by decide) (by decide)

/-- C9: without the AUTH0_* configuration (empty domain or audience), every
request is answered 401 with the explicit "Auth not configured" detail; the
verifier fails closed — body validation never runs, `jwtVerify` is never
attempted, and no provider is invoked. -/
theorem auth_not_configured_fail_closed (env : Env) (w : World) (req : RawRequest)
    (hsize : req.bodySize ≤ jsonLimitBytes)
    (hcfg : env.auth0Domain = "" ∨ env.auth0Audience = "") :
    (handleRequest env w req).response =
      unauthorized (some "Auth not configured on server (missing AUTH0_* envs).") ∧
    (handleRequest env w req).response.status = 401 ∧
    (handleRequest env w req).providerCalls = [] ∧
    (handleRequest env w req).bodyParseRan = false ∧
    (handleRequest env w req).verifyAttempted = false := by
  have hc := checkJwtJose_notConfigured env w req.authorization hcfg
  have hbl : (checkJwtJose env w req.authorization).blocked =
      some (unauthorized (some "Auth not configured on server (missing AUTH0_* envs).")) := by
    rw [hc]
  rw [handleRequest_blocked env w req hsize _ hbl]
  refine ⟨rfl, rfl, rfl, rfl, ?_⟩
  rw [hc]

theorem auth_not_configured_fail_closed_witness :
    (handleRequest envNoAuth baseWorld reqHello).response.status = 401 ∧
    (handleRequest envNoAuth baseWorld reqHello).providerCalls = [] ∧
    (handleRequest envNoAuth baseWorld reqHello).bodyParseRan = false := by
  have h := auth_not_configured_fail_closed envNoAuth baseWorld reqHello
      (by decide) (Or.inl rfl)
  exact ⟨h.2.1, h.2.2.1, h.2.2.2.1⟩

/-- C10: a request whose raw JSON body exceeds the 1 MB parser ceiling is
rejected by the body-parsing middleware (HTTP 413) before the token check or
the text validation run: the 401/400 machinery and the providers are never
reached, and the failure is not the Validation branch's 400. -/
theorem body_limit_rejected_before_auth (env : Env) (w : World) (req : RawRequest)
    (hsize : req.bodySize > jsonLimitBytes) :
    (handleRequest env w req).response = payloadTooLarge ∧
    (handleRequest env w req).response.status = 413 ∧
    ¬ (handleRequest env w req).response.status = 400 ∧
    (handleRequest env w req).jwtCheckRan = false ∧
    (handleRequest env w req).bodyParseRan = false ∧
    (handleRequest env w req).providerCalls = [] := by
  unfold handleRequest
  rw [if_pos hsize]
  exact ⟨rfl, rfl, by decide, rfl, rfl, rfl⟩

theorem body_limit_rejected_before_auth_witness :
    (handleRequest envBoth baseWorld reqHuge).response.status = 413 ∧
    (handleRequest envBoth baseWorld reqHuge).jwtCheckRan = false := by
  have h := body_limit_rejected_before_auth envBoth baseWorld reqHuge (by decide)
  exact ⟨h.2.1, h.2.2.2.1⟩

end SummarAIze
